import Mathlib

/-!
# Verification of the aiovix asynchronous job-completion bridge

Shallow embedding of the concurrency/lifecycle core of `aiovix`
(`src/aiovix/VixVM.py`): the process registry (`_proc_jobs`, `_idx`),
the per-launch record (`_ProcJob`), the native completion callback
(`_callback_handler`) and the guest-process launch operations
(`VixVM.proc_run`, `VixVM.run_script`).

Modelling choices:
* The Python dict `_proc_jobs : token -> _ProcJob` maps tokens to shared
  mutable record objects; a waiter keeps its reference to the record after
  the handler pops the dict entry.  We therefore split the dict into a
  heap `recs` of all record objects ever created (keyed by their token,
  which is process-unique) and the set `registered` of tokens currently
  present in the dict.  Mutating a record (`job.pid = ...`) updates `recs`;
  `dict.pop` removes the token from `registered` only.
* Every raising path of the Python code (`raise ValueError`, a failing
  `assert`) occurs before any mutation in the source, so the embedding
  returns the input state unchanged together with the error.
* The handler additionally emits a trace of the atomic actions it performs,
  in source order, so that temporal claims (store/remove before signal,
  register before native issue) are statements about lists.
* The native runtime is a parameter: `env : Except Int CallbackProps` is
  the outcome of the launch (error code, or the properties that both the
  job-wait and the completion callback report for the guest process), and
  a Boolean interleaving parameter says whether the callback thread has
  run before the launcher reads the record fields.
-/

namespace Aiovix

/-- Model of class `_ProcJob` (VixVM.py lines 34-68): per-launch record with
nullable result fields and a one-shot completion event `_done_evt`. -/
structure ProcJob where
  pid : Option Int
  exit_code : Option Int
  elapsed_time : Option Int
  done_evt : Bool
deriving DecidableEq, Repr

/-- A freshly constructed record: class attributes `pid = exit_code =
elapsed_time = None`, `_done_evt = Event()` (unset). -/
def ProcJob.blank : ProcJob := ⟨none, none, none, false⟩

/-- Model of the module-level mutable state of VixVM.py lines 30-32:
`_idx` (next token, starts at 1), the record heap, and the key set of the
`_proc_jobs` dict (see the header comment for the heap/key-set split). -/
structure BridgeState where
  idx : Nat
  recs : List (Nat × ProcJob)
  registered : List Nat
deriving DecidableEq, Repr

/-- The module state at import time: `_idx = 1`, `_proc_jobs = dict()`. -/
def initState : BridgeState := ⟨1, [], []⟩

/-- First-match association-list lookup (dict access by token). -/
def lookupRec : List (Nat × ProcJob) → Nat → Option ProcJob
  | [], _ => none
  | (k, r) :: rest, t => if k = t then some r else lookupRec rest t

/-- Mutate the record object with token `t` in the heap. -/
def updateRec : List (Nat × ProcJob) → Nat → (ProcJob → ProcJob) → List (Nat × ProcJob)
  | [], _, _ => []
  | (k, r) :: rest, t, f =>
    if k = t then (k, f r) :: updateRec rest t f else (k, r) :: updateRec rest t f

/-- Read a record object through a retained reference (waiter side). -/
def getRec (s : BridgeState) (t : Nat) : ProcJob :=
  (lookupRec s.recs t).getD ProcJob.blank

/-- Model of `_ProcJob.__init__` (VixVM.py lines 39-50): under the registry
lock, assign the current `_idx` as the record's id, increment `_idx`, and
insert the record into `_proc_jobs`.  Returns the assigned token. -/
def ProcJob.register (s : BridgeState) : Nat × BridgeState :=
  (s.idx,
   { idx := s.idx + 1,
     recs := (s.idx, ProcJob.blank) :: s.recs,
     registered := s.idx :: s.registered })

/-- Model of `_ProcJob.by_id` (VixVM.py lines 55-61): `_proc_jobs.get(id)`
under the lock — a lookup that does not remove, returning `none` for an
unknown token. -/
def by_id (s : BridgeState) (t : Nat) : Option ProcJob :=
  if t ∈ s.registered then lookupRec s.recs t else none

def VIX_EVENTTYPE_JOB_COMPLETED : Int := 2
def VIX_EVENTTYPE_JOB_PROGRESS : Int := 3

/-- The three job-result properties that `_callback_handler` fetches from
the handle in one `get_properties` round-trip (VixVM.py lines 1260-1264),
and that `proc_run` fetches the first of via `wait_async`. -/
structure CallbackProps where
  pid : Int
  exit_code : Int
  elapsed_time : Int
deriving DecidableEq, Repr

/-- The raising paths of `_callback_handler`:
`ValueError('Got callback event for non-existent job')`,
`AssertionError('job pid has changed')`, and
`ValueError('Unexpected VIX_EVENTTYPE_JOB ...')`. -/
inductive CbError where
  | nonExistentJob
  | pidChanged
  | unexpectedEventType (event_type : Int)
deriving DecidableEq, Repr

/-- Atomic actions, used to express temporal ordering claims. -/
inductive Action where
  | registerTok (tok : Nat)
  | issueNative (tok : Nat)
  | jobWait (tok : Nat)
  | lookupTok (tok : Nat)
  | storeResults (tok : Nat) (pid exit_code elapsed_time : Int)
  | removeToken (tok : Nat)
  | setSignal (tok : Nat)
  | storePid (tok : Nat) (pid : Int)
  | brokenWait (tok : Nat)
deriving DecidableEq, Repr

/-- The guard of VixVM.py lines 1265-1266: `if job.pid:` is a Python
truthiness test (`None` and `0` are both falsy), and the assertion fails
when the stored pid differs from the reported one. -/
def pidCheckFails : Option Int → Int → Bool
  | some p, reported => if p = 0 then false else if p = reported then false else true
  | none, _ => false

/-- Model of `_callback_handler` (VixVM.py lines 1244-1275), in source
order: resolve the token with `by_id` and raise if unknown; a progress
event is a no-op; a completion event checks the previously stored pid,
stores `{pid, exit_code, elapsed_time}` into the record, pops the token
from `_proc_jobs`, then sets `_done_evt`; any other event kind raises.
Returns the post-state, the raised error if any, and the action trace. -/
def callback_handler (props : CallbackProps) (event_type : Int) (job_id : Nat)
    (s : BridgeState) : BridgeState × Option CbError × List Action :=
  match by_id s job_id with
  | none => (s, some .nonExistentJob, [.lookupTok job_id])
  | some job =>
    if event_type = VIX_EVENTTYPE_JOB_PROGRESS then
      (s, none, [.lookupTok job_id])
    else if event_type = VIX_EVENTTYPE_JOB_COMPLETED then
      if pidCheckFails job.pid props.pid then
        (s, some .pidChanged, [.lookupTok job_id])
      else
        let s1 : BridgeState :=
          { s with recs := updateRec s.recs job_id (fun r =>
              { r with pid := some props.pid,
                       exit_code := some props.exit_code,
                       elapsed_time := some props.elapsed_time }) }
        let s2 : BridgeState := { s1 with registered := s1.registered.erase job_id }
        let s3 : BridgeState :=
          { s2 with recs := updateRec s2.recs job_id (fun r => { r with done_evt := true }) }
        (s3, none,
         [.lookupTok job_id,
          .storeResults job_id props.pid props.exit_code props.elapsed_time,
          .removeToken job_id, .setSignal job_id])
    else
      (s, some (.unexpectedEventType event_type), [.lookupTok job_id])

/-- The assignment `pj.pid = pid` performed by the launcher (VixVM.py
line 906 / 937). -/
def storePidIn (s : BridgeState) (t : Nat) (pid : Int) : BridgeState :=
  { s with recs := updateRec s.recs t (fun r => { r with pid := some pid }) }

/-- The `Process` namedtuple (VixVM.py line 27). -/
structure Process where
  pid : Int
  exit_code : Option Int
  elapsed_time : Option Int
deriving DecidableEq, Repr

/-- Outcome of a launch: the returned `Process`, or a propagated
`VixError` code from the native job wait. -/
inductive RunOutcome where
  | ok (p : Process)
  | nativeError (code : Int)
deriving DecidableEq, Repr

/-- Model of `VixVM.proc_run` (VixVM.py lines 878-910): construct and
register a `_ProcJob`; issue `VixVM_RunProgramInGuest` with the record's
token as callback context; await the job for the process id (raising the
native error code on failure); if `should_block`, store the pid into the
record and call `pj.wait()` — which, because the `async def wait`
shadows the blocking `def wait` in the class body, returns an un-awaited
coroutine and does not block — then read the record's `exit_code` and
`elapsed_time`.  `cb_before_read` is the interleaving parameter: whether
the native callback thread has delivered the completion event before the
launcher reads the record fields. -/
def proc_run (should_block : Bool) (env : Except Int CallbackProps)
    (cb_before_read : Bool) (s : BridgeState) :
    RunOutcome × BridgeState × List Action :=
  let t := (ProcJob.register s).1
  let s1 := (ProcJob.register s).2
  match env with
  | .error code => (.nativeError code, s1, [.registerTok t, .issueNative t, .jobWait t])
  | .ok props =>
    let pid := props.pid
    if should_block then
      let s2 := storePidIn s1 t pid
      let s3 :=
        if cb_before_read then (callback_handler props VIX_EVENTTYPE_JOB_COMPLETED t s2).1
        else s2
      let r := getRec s3 t
      (.ok ⟨pid, r.exit_code, r.elapsed_time⟩, s3,
       [.registerTok t, .issueNative t, .jobWait t, .storePid t pid, .brokenWait t] ++
         (if cb_before_read then (callback_handler props VIX_EVENTTYPE_JOB_COMPLETED t s2).2.2
          else []))
    else
      (.ok ⟨pid, none, none⟩, s1, [.registerTok t, .issueNative t, .jobWait t])

/-- Model of `VixVM.run_script` (VixVM.py lines 912-941): identical
structure to `proc_run`, issuing `VixVM_RunScriptInGuest` instead. -/
def run_script (should_block : Bool) (env : Except Int CallbackProps)
    (cb_before_read : Bool) (s : BridgeState) :
    RunOutcome × BridgeState × List Action :=
  let t := (ProcJob.register s).1
  let s1 := (ProcJob.register s).2
  match env with
  | .error code => (.nativeError code, s1, [.registerTok t, .issueNative t, .jobWait t])
  | .ok props =>
    let pid := props.pid
    if should_block then
      let s2 := storePidIn s1 t pid
      let s3 :=
        if cb_before_read then (callback_handler props VIX_EVENTTYPE_JOB_COMPLETED t s2).1
        else s2
      let r := getRec s3 t
      (.ok ⟨pid, r.exit_code, r.elapsed_time⟩, s3,
       [.registerTok t, .issueNative t, .jobWait t, .storePid t pid, .brokenWait t] ++
         (if cb_before_read then (callback_handler props VIX_EVENTTYPE_JOB_COMPLETED t s2).2.2
          else []))
    else
      (.ok ⟨pid, none, none⟩, s1, [.registerTok t, .issueNative t, .jobWait t])

/-- The operations that touch the module-level registry state. -/
inductive Op where
  | opRegister
  | opCallback (props : CallbackProps) (event_type : Int) (job_id : Nat)
  | opProcRun (should_block : Bool) (env : Except Int CallbackProps) (cb_before_read : Bool)
  | opRunScript (should_block : Bool) (env : Except Int CallbackProps) (cb_before_read : Bool)

/-- State effect of one operation. -/
def stepState : Op → BridgeState → BridgeState
  | .opRegister, s => (ProcJob.register s).2
  | .opCallback props et j, s => (callback_handler props et j s).1
  | .opProcRun sb env cb, s => (proc_run sb env cb s).2.1
  | .opRunScript sb env cb, s => (run_script sb env cb s).2.1

/-- The correlation tokens assigned by a sequence of operations, in
assignment order (`opRegister`, `opProcRun` and `opRunScript` each
construct one `_ProcJob`, which is assigned the current `_idx`). -/
def assignedTokens : List Op → BridgeState → List Nat
  | [], _ => []
  | op :: ops, s =>
    (match op with
     | .opRegister => [s.idx]
     | .opProcRun _ _ _ => [s.idx]
     | .opRunScript _ _ _ => [s.idx]
     | .opCallback _ _ _ => []) ++ assignedTokens ops (stepState op s)

/-- Whether an operation is a delivery of a completion event for token
`t` to the callback handler (the only code path that pops `_proc_jobs`). -/
def completionFor : Op → Nat → Bool
  | .opCallback _ et j, t => et = VIX_EVENTTYPE_JOB_COMPLETED && j = t
  | _, _ => false

/-- Reachable-state invariant: every registered token was assigned by a
strictly earlier `_idx`, hence is below the current `_idx`. -/
def tokensBounded (s : BridgeState) : Prop :=
  ∀ u ∈ s.registered, u < s.idx

instance (s : BridgeState) : Decidable (tokensBounded s) := by
  unfold tokensBounded; infer_instance

/-! ## Helper lemmas -/

theorem by_id_spec {s : BridgeState} {t : Nat} {job : ProcJob}
    (h : by_id s t = some job) :
    t ∈ s.registered ∧ lookupRec s.recs t = some job := by
  unfold by_id at h
  by_cases hm : t ∈ s.registered
  · rw [if_pos hm] at h; exact ⟨hm, h⟩
  · rw [if_neg hm] at h; exact absurd h (by simp)

theorem lookupRec_updateRec_self (t : Nat) (f : ProcJob → ProcJob) :
    ∀ rs : List (Nat × ProcJob),
      lookupRec (updateRec rs t f) t = (lookupRec rs t).map f
  | [] => rfl
  | (k, r) :: rest => by
    by_cases hk : k = t <;>
      simp [updateRec, lookupRec, hk, lookupRec_updateRec_self t f rest]

/-- Unfolded form of the completion-success branch of the handler. -/
theorem callback_handler_complete {props : CallbackProps} {t : Nat}
    {s : BridgeState} {job : ProcJob}
    (hreg : by_id s t = some job)
    (hpc : pidCheckFails job.pid props.pid = false) :
    callback_handler props VIX_EVENTTYPE_JOB_COMPLETED t s =
      ({ idx := s.idx,
         recs := updateRec
           (updateRec s.recs t (fun r =>
             { r with pid := some props.pid,
                      exit_code := some props.exit_code,
                      elapsed_time := some props.elapsed_time })) t
           (fun r => { r with done_evt := true }),
         registered := s.registered.erase t },
       none,
       [.lookupTok t,
        .storeResults t props.pid props.exit_code props.elapsed_time,
        .removeToken t, .setSignal t]) := by
  simp [callback_handler, hreg, hpc, VIX_EVENTTYPE_JOB_COMPLETED, VIX_EVENTTYPE_JOB_PROGRESS]

/-- The registered-token set after the handler: unchanged, or with the
delivered token erased. -/
theorem callback_handler_registered (props : CallbackProps) (et : Int) (j : Nat)
    (s : BridgeState) :
    (callback_handler props et j s).1.registered = s.registered ∨
    ((callback_handler props et j s).1.registered = s.registered.erase j ∧
      et = VIX_EVENTTYPE_JOB_COMPLETED) := by
  unfold callback_handler
  cases by_id s j with
  | none => exact Or.inl rfl
  | some job =>
    dsimp only
    split_ifs with h1 h2 h3
    · exact Or.inl rfl
    · exact Or.inl rfl
    · exact Or.inr ⟨rfl, h2⟩
    · exact Or.inl rfl

theorem callback_handler_registered_of_ne {props : CallbackProps} {et : Int}
    {j t : Nat} {s : BridgeState} (hmem : t ∈ s.registered) (hne : t ≠ j) :
    t ∈ (callback_handler props et j s).1.registered := by
  rcases callback_handler_registered props et j s with h | ⟨h, _⟩
  · rw [h]; exact hmem
  · rw [h]; exact (List.mem_erase_of_ne hne).2 hmem

theorem callback_handler_registered_of_ne_completed {props : CallbackProps}
    {et : Int} {j : Nat} {s : BridgeState}
    (h2 : et ≠ VIX_EVENTTYPE_JOB_COMPLETED) :
    (callback_handler props et j s).1.registered = s.registered := by
  rcases callback_handler_registered props et j s with h | ⟨_, hc⟩
  · exact h
  · exact absurd hc h2

/-- The handler never touches the token counter `_idx`. -/
theorem callback_handler_idx (props : CallbackProps) (et : Int) (j : Nat)
    (s : BridgeState) :
    (callback_handler props et j s).1.idx = s.idx := by
  unfold callback_handler
  cases by_id s j with
  | none => rfl
  | some job =>
    dsimp only
    split_ifs <;> rfl

/-! ## Concrete states used by witnesses and counterexamples -/

/-- A state with one freshly registered record under token 1. -/
def oneRegState : BridgeState := ⟨2, [(1, ProcJob.blank)], [1]⟩

/-- A state whose registered record has previously observed pid 0
(Python-falsy), as `proc_run` stores when the native job reports pid 0. -/
def pidZeroState : BridgeState := ⟨2, [(1, ⟨some 0, none, none, false⟩)], [1]⟩

/-! ## Claims -/

/-- C1 (code bug evaluation): with `should_block = True` and the native
runtime delivering pid 1234, exit code 0, elapsed 500 ms, `proc_run` does
NOT wait for the record's completion signal: `pj.wait()` calls the
`async def wait` that shadows the blocking `def wait` (VixVM.py lines
63-68) and discards the resulting coroutine.  If the callback thread has
not yet delivered the completion event when the record is read, the call
returns `Process(1234, None, None)` with the signal still unset, instead
of waiting and returning `Process(1234, 0, 500)`; the documented value is
obtained only by winning the race against the callback thread.  The same
holds for `run_script`. -/
theorem proc_run_returns_without_waiting :
    (proc_run true (.ok ⟨1234, 0, 500⟩) false initState).1 = .ok ⟨1234, none, none⟩ ∧
    (getRec (proc_run true (.ok ⟨1234, 0, 500⟩) false initState).2.1 1).done_evt = false ∧
    (run_script true (.ok ⟨1234, 0, 500⟩) false initState).1 = .ok ⟨1234, none, none⟩ ∧
    (proc_run true (.ok ⟨1234, 0, 500⟩) true initState).1 = .ok ⟨1234, some 0, some 500⟩ ∧
    (run_script true (.ok ⟨1234, 0, 500⟩) true initState).1 = .ok ⟨1234, some 0, some 500⟩ := by
  decide

/-- C5: a completion event whose token is not in the registry makes the
callback handler raise (`ValueError`, the protocol-violation path) and
leaves the registry and every record unchanged; the unknown token is
never silently ignored. -/
theorem completion_unknown_token_fails (props : CallbackProps) (t : Nat)
    (s : BridgeState) (h : t ∉ s.registered) :
    callback_handler props VIX_EVENTTYPE_JOB_COMPLETED t s =
      (s, some .nonExistentJob, [.lookupTok t]) := by
  simp [callback_handler, by_id, h]

/-- Witness for `completion_unknown_token_fails`: token 1 at the initial
state. -/
theorem completion_unknown_token_fails_witness :
    (1 : Nat) ∉ initState.registered ∧
    callback_handler ⟨1234, 0, 500⟩ VIX_EVENTTYPE_JOB_COMPLETED 1 initState =
      (initState, some .nonExistentJob, [.lookupTok 1]) :=
  ⟨by decide, completion_unknown_token_fails ⟨1234, 0, 500⟩ 1 initState (by decide)⟩

/-- C10: a progress event whose token is not in the registry also raises
(the `by_id` lookup precedes the event-kind dispatch), rather than being
a no-op. -/
theorem progress_unknown_token_fails (props : CallbackProps) (t : Nat)
    (s : BridgeState) (h : t ∉ s.registered) :
    callback_handler props VIX_EVENTTYPE_JOB_PROGRESS t s =
      (s, some .nonExistentJob, [.lookupTok t]) := by
  simp [callback_handler, by_id, h]

/-- Witness for `progress_unknown_token_fails`: token 2 against a state
registering only token 1. -/
theorem progress_unknown_token_fails_witness :
    (2 : Nat) ∉ oneRegState.registered ∧
    callback_handler ⟨7, 7, 7⟩ VIX_EVENTTYPE_JOB_PROGRESS 2 oneRegState =
      (oneRegState, some .nonExistentJob, [.lookupTok 2]) :=
  ⟨by decide, progress_unknown_token_fails ⟨7, 7, 7⟩ 2 oneRegState (by decide)⟩

/-- C7: an event of any kind other than progress (3) and completion (2),
delivered for a registered token, makes the handler raise
(`ValueError: Unexpected VIX_EVENTTYPE_JOB`) and leaves the registry, all
records and all completion signals exactly as they were — unrecognized
kinds are never silently swallowed. -/
theorem unknown_kind_fails (props : CallbackProps) (et : Int) (t : Nat)
    (s : BridgeState) (job : ProcJob) (hreg : by_id s t = some job)
    (h2 : et ≠ VIX_EVENTTYPE_JOB_COMPLETED) (h3 : et ≠ VIX_EVENTTYPE_JOB_PROGRESS) :
    callback_handler props et t s =
      (s, some (.unexpectedEventType et), [.lookupTok t]) := by
  simp [callback_handler, hreg, h2, h3]

/-- Witness for `unknown_kind_fails`: event kind 5 for registered token 1. -/
theorem unknown_kind_fails_witness :
    by_id oneRegState 1 = some ProcJob.blank ∧
    (5 : Int) ≠ VIX_EVENTTYPE_JOB_COMPLETED ∧
    (5 : Int) ≠ VIX_EVENTTYPE_JOB_PROGRESS ∧
    callback_handler ⟨9, 9, 9⟩ 5 1 oneRegState =
      (oneRegState, some (.unexpectedEventType 5), [.lookupTok 1]) :=
  ⟨by decide, by decide, by decide,
   unknown_kind_fails ⟨9, 9, 9⟩ 5 1 oneRegState ProcJob.blank
     (by decide) (by decide) (by decide)⟩

/-- C6 counterexample: the claim as stated is false at a previously
observed pid of 0.  The guard `if job.pid:` is a Python truthiness test,
so a record whose observed pid is 0 (registered under token 1) receives a
completion event reporting pid 20 and the handler raises nothing and
silently overwrites the stored pid with 20. -/
theorem pid_zero_mismatch_not_detected :
    by_id pidZeroState 1 = some ⟨some 0, none, none, false⟩ ∧
    (0 : Int) ≠ 20 ∧
    (callback_handler ⟨20, 7, 100⟩ VIX_EVENTTYPE_JOB_COMPLETED 1 pidZeroState).2.1 = none ∧
    (getRec (callback_handler ⟨20, 7, 100⟩ VIX_EVENTTYPE_JOB_COMPLETED 1 pidZeroState).1 1).pid
      = some 20 := by
  decide

/-- C6 (amended): for a record whose previously observed pid is nonzero
(Python-truthy), a completion event reporting a different pid for the
same still-registered token fails the `assert job.pid == props[0]`
consistency check and leaves the registry and the record unchanged,
rather than silently overwriting the stored pid. -/
theorem pid_mismatch_fails (props : CallbackProps) (t : Nat) (s : BridgeState)
    (job : ProcJob) (p : Int) (hreg : by_id s t = some job)
    (hpid : job.pid = some p) (hnz : p ≠ 0) (hne : p ≠ props.pid) :
    callback_handler props VIX_EVENTTYPE_JOB_COMPLETED t s =
      (s, some .pidChanged, [.lookupTok t]) := by
  simp [callback_handler, hreg, pidCheckFails, hpid, hnz, hne,
        VIX_EVENTTYPE_JOB_COMPLETED, VIX_EVENTTYPE_JOB_PROGRESS]

/-- Witness for `pid_mismatch_fails`: observed pid 10, completion
reporting pid 20 for the same still-registered token. -/
theorem pid_mismatch_fails_witness :
    by_id ⟨2, [(1, ⟨some 10, none, none, false⟩)], [1]⟩ 1
      = some ⟨some 10, none, none, false⟩ ∧
    (10 : Int) ≠ 0 ∧ (10 : Int) ≠ 20 ∧
    callback_handler ⟨20, 0, 0⟩ VIX_EVENTTYPE_JOB_COMPLETED 1
        ⟨2, [(1, ⟨some 10, none, none, false⟩)], [1]⟩ =
      (⟨2, [(1, ⟨some 10, none, none, false⟩)], [1]⟩, some .pidChanged, [.lookupTok 1]) :=
  ⟨by decide, by decide, by decide,
   pid_mismatch_fails ⟨20, 0, 0⟩ 1 ⟨2, [(1, ⟨some 10, none, none, false⟩)], [1]⟩
     ⟨some 10, none, none, false⟩ 10 (by decide) (by decide) (by decide) (by decide)⟩

/-- C8: in every execution of `proc_run` and of `run_script` — blocking
or not, native success or failure — the record is constructed and
registered (receiving token `s.idx`) strictly before the native call that
can trigger its completion callback is issued: the action trace begins
with registration followed by the native issue. -/
theorem register_precedes_issue (sb cb : Bool) (env : Except Int CallbackProps)
    (s : BridgeState) :
    (proc_run sb env cb s).2.2.take 2 = [.registerTok s.idx, .issueNative s.idx] ∧
    (run_script sb env cb s).2.2.take 2 = [.registerTok s.idx, .issueNative s.idx] := by
  cases env <;> cases sb <;> cases cb <;>
    simp [proc_run, run_script, ProcJob.register, List.take]

/-- C2: in the completion branch of the handler, the result fields are
stored into the record and the token is popped from the registry strictly
before `_done_evt` is set (both actions precede `setSignal` in the source
trace), and in the resulting state the signal is set, the three result
fields hold the delivered values, and the token is absent from the
registry — so any waiter observing the signal finds the results populated
and the token gone. -/
theorem completion_order (props : CallbackProps) (t : Nat) (s : BridgeState)
    (job : ProcJob) (hreg : by_id s t = some job)
    (hpc : pidCheckFails job.pid props.pid = false)
    (hnd : s.registered.Nodup) :
    (callback_handler props VIX_EVENTTYPE_JOB_COMPLETED t s).2.2 =
      [.lookupTok t, .storeResults t props.pid props.exit_code props.elapsed_time,
       .removeToken t, .setSignal t] ∧
    (∃ pre post,
      (callback_handler props VIX_EVENTTYPE_JOB_COMPLETED t s).2.2
        = pre ++ Action.setSignal t :: post ∧
      Action.storeResults t props.pid props.exit_code props.elapsed_time ∈ pre ∧
      Action.removeToken t ∈ pre) ∧
    (getRec (callback_handler props VIX_EVENTTYPE_JOB_COMPLETED t s).1 t).done_evt = true ∧
    (getRec (callback_handler props VIX_EVENTTYPE_JOB_COMPLETED t s).1 t).pid
      = some props.pid ∧
    (getRec (callback_handler props VIX_EVENTTYPE_JOB_COMPLETED t s).1 t).exit_code
      = some props.exit_code ∧
    (getRec (callback_handler props VIX_EVENTTYPE_JOB_COMPLETED t s).1 t).elapsed_time
      = some props.elapsed_time ∧
    by_id (callback_handler props VIX_EVENTTYPE_JOB_COMPLETED t s).1 t = none := by
  obtain ⟨hmem, hlook⟩ := by_id_spec hreg
  rw [callback_handler_complete hreg hpc]
  refine ⟨rfl,
    ⟨[.lookupTok t, .storeResults t props.pid props.exit_code props.elapsed_time,
      .removeToken t], [], rfl, by simp, by simp⟩, ?_, ?_, ?_, ?_, ?_⟩ <;>
    simp [getRec, lookupRec_updateRec_self, hlook, by_id, List.Nodup.not_mem_erase hnd]

/-- Witness for `completion_order`: token 1 freshly registered, completion
delivering pid 10, exit code 0, elapsed 5. -/
theorem completion_order_witness :
    by_id oneRegState 1 = some ProcJob.blank ∧
    pidCheckFails ProcJob.blank.pid 10 = false ∧
    oneRegState.registered.Nodup ∧
    ((callback_handler ⟨10, 0, 5⟩ VIX_EVENTTYPE_JOB_COMPLETED 1 oneRegState).2.2 =
      [.lookupTok 1, .storeResults 1 10 0 5, .removeToken 1, .setSignal 1] ∧
    (∃ pre post,
      (callback_handler ⟨10, 0, 5⟩ VIX_EVENTTYPE_JOB_COMPLETED 1 oneRegState).2.2
        = pre ++ Action.setSignal 1 :: post ∧
      Action.storeResults 1 10 0 5 ∈ pre ∧ Action.removeToken 1 ∈ pre) ∧
    (getRec (callback_handler ⟨10, 0, 5⟩ VIX_EVENTTYPE_JOB_COMPLETED 1 oneRegState).1 1).done_evt
      = true ∧
    (getRec (callback_handler ⟨10, 0, 5⟩ VIX_EVENTTYPE_JOB_COMPLETED 1 oneRegState).1 1).pid
      = some 10 ∧
    (getRec (callback_handler ⟨10, 0, 5⟩ VIX_EVENTTYPE_JOB_COMPLETED 1 oneRegState).1 1).exit_code
      = some 0 ∧
    (getRec (callback_handler ⟨10, 0, 5⟩
        VIX_EVENTTYPE_JOB_COMPLETED 1 oneRegState).1 1).elapsed_time
      = some 5 ∧
    by_id (callback_handler ⟨10, 0, 5⟩ VIX_EVENTTYPE_JOB_COMPLETED 1 oneRegState).1 1 = none) :=
  ⟨by decide, by decide, by decide,
   completion_order ⟨10, 0, 5⟩ 1 oneRegState ProcJob.blank (by decide) (by decide) (by decide)⟩

/-- C4: after the handler has successfully processed a completion event
for token `t` (on a duplicate-free registry), the registry no longer
resolves `t`, and a second event for `t` — of any kind, with any
properties — fails with the non-existent-job error and changes nothing,
rather than signaling or populating a record again. -/
theorem second_completion_fails (props props2 : CallbackProps) (et2 : Int)
    (t : Nat) (s : BridgeState) (hnd : s.registered.Nodup)
    (hok : (callback_handler props VIX_EVENTTYPE_JOB_COMPLETED t s).2.1 = none) :
    by_id (callback_handler props VIX_EVENTTYPE_JOB_COMPLETED t s).1 t = none ∧
    callback_handler props2 et2 t (callback_handler props VIX_EVENTTYPE_JOB_COMPLETED t s).1 =
      ((callback_handler props VIX_EVENTTYPE_JOB_COMPLETED t s).1,
       some .nonExistentJob, [.lookupTok t]) := by
  cases hby : by_id s t with
  | none => simp [callback_handler, hby] at hok
  | some job =>
    cases hpc : pidCheckFails job.pid props.pid with
    | true =>
      simp [callback_handler, hby, hpc,
            VIX_EVENTTYPE_JOB_COMPLETED, VIX_EVENTTYPE_JOB_PROGRESS] at hok
    | false =>
      rw [callback_handler_complete hby hpc]
      have hnm : t ∉ s.registered.erase t := List.Nodup.not_mem_erase hnd
      have hbid :
          by_id { idx := s.idx,
                  recs := updateRec
                    (updateRec s.recs t (fun r =>
                      { r with pid := some props.pid,
                               exit_code := some props.exit_code,
                               elapsed_time := some props.elapsed_time })) t
                    (fun r => { r with done_evt := true }),
                  registered := s.registered.erase t : BridgeState } t = none := by
        simp [by_id, hnm]
      exact ⟨hbid, by simp [callback_handler, hbid]⟩

/-- Witness for `second_completion_fails`: complete token 1, then deliver
a second completion for it. -/
theorem second_completion_fails_witness :
    oneRegState.registered.Nodup ∧
    (callback_handler ⟨11, 1, 2⟩ VIX_EVENTTYPE_JOB_COMPLETED 1 oneRegState).2.1 = none ∧
    (by_id (callback_handler ⟨11, 1, 2⟩ VIX_EVENTTYPE_JOB_COMPLETED 1 oneRegState).1 1 = none ∧
     callback_handler ⟨12, 3, 4⟩ VIX_EVENTTYPE_JOB_COMPLETED 1
        (callback_handler ⟨11, 1, 2⟩ VIX_EVENTTYPE_JOB_COMPLETED 1 oneRegState).1 =
      ((callback_handler ⟨11, 1, 2⟩ VIX_EVENTTYPE_JOB_COMPLETED 1 oneRegState).1,
       some .nonExistentJob, [.lookupTok 1])) :=
  ⟨by decide, by decide,
   second_completion_fails ⟨11, 1, 2⟩ ⟨12, 3, 4⟩ VIX_EVENTTYPE_JOB_COMPLETED 1 oneRegState
     (by decide) (by decide)⟩

/-! ## Token monotonicity -/

theorem proc_run_idx (sb cb : Bool) (env : Except Int CallbackProps)
    (s : BridgeState) : (proc_run sb env cb s).2.1.idx = s.idx + 1 := by
  cases env <;> cases sb <;> cases cb <;>
    simp [proc_run, callback_handler_idx, ProcJob.register, storePidIn]

theorem run_script_idx (sb cb : Bool) (env : Except Int CallbackProps)
    (s : BridgeState) : (run_script sb env cb s).2.1.idx = s.idx + 1 := by
  cases env <;> cases sb <;> cases cb <;>
    simp [run_script, callback_handler_idx, ProcJob.register, storePidIn]

/-- The token counter never decreases under any operation. -/
theorem idx_le_stepState (op : Op) (s : BridgeState) :
    s.idx ≤ (stepState op s).idx := by
  cases op with
  | opRegister => exact Nat.le_succ s.idx
  | opCallback p et j => rw [stepState, callback_handler_idx]
  | opProcRun sb env cb => rw [stepState, proc_run_idx]; exact Nat.le_succ _
  | opRunScript sb env cb => rw [stepState, run_script_idx]; exact Nat.le_succ _

/-- Every token assigned from state `s` onward is at least `s.idx`. -/
theorem le_assignedTokens :
    ∀ (ops : List Op) (s : BridgeState) (x : Nat),
      x ∈ assignedTokens ops s → s.idx ≤ x
  | [], s, x => by intro hx; simp [assignedTokens] at hx
  | op :: ops, s, x => by
    intro hx
    have htail : x ∈ assignedTokens ops (stepState op s) → s.idx ≤ x := fun h =>
      le_trans (idx_le_stepState op s)
        (le_assignedTokens ops (stepState op s) x h)
    cases op with
    | opCallback p et j => exact htail (by simpa [assignedTokens] using hx)
    | opRegister =>
      rcases (by simpa [assignedTokens] using hx :
          x = s.idx ∨ x ∈ assignedTokens ops (stepState .opRegister s)) with h | h
      · exact h ▸ le_refl _
      · exact htail h
    | opProcRun sb env cb =>
      rcases (by simpa [assignedTokens] using hx :
          x = s.idx ∨ x ∈ assignedTokens ops (stepState (.opProcRun sb env cb) s)) with h | h
      · exact h ▸ le_refl _
      · exact htail h
    | opRunScript sb env cb =>
      rcases (by simpa [assignedTokens] using hx :
          x = s.idx ∨ x ∈ assignedTokens ops (stepState (.opRunScript sb env cb) s)) with h | h
      · exact h ▸ le_refl _
      · exact htail h

/-- C3: along every sequence of operations — `_ProcJob` registrations,
whether direct or performed inside `proc_run`/`run_script`, interleaved
with arbitrary callback deliveries — the assigned correlation tokens are
strictly increasing in registration order, hence pairwise distinct, and
no token is ever assigned twice for the lifetime of the process state. -/
theorem tokens_strictly_increasing :
    ∀ (ops : List Op) (s : BridgeState),
      List.Pairwise (· < ·) (assignedTokens ops s)
  | [], _ => by simp [assignedTokens]
  | op :: ops, s => by
    have IH := tokens_strictly_increasing ops (stepState op s)
    cases op with
    | opCallback p et j => simpa [assignedTokens] using IH
    | opRegister =>
      refine List.pairwise_cons.mpr ⟨fun a ha => ?_, IH⟩
      have h1 := le_assignedTokens ops (stepState .opRegister s) a ha
      have h2 : (stepState Op.opRegister s).idx = s.idx + 1 := rfl
      omega
    | opProcRun sb env cb =>
      refine List.pairwise_cons.mpr ⟨fun a ha => ?_, IH⟩
      have h1 := le_assignedTokens ops (stepState (.opProcRun sb env cb) s) a ha
      have h2 : (stepState (Op.opProcRun sb env cb) s).idx = s.idx + 1 := by
        rw [stepState, proc_run_idx]
      omega
    | opRunScript sb env cb =>
      refine List.pairwise_cons.mpr ⟨fun a ha => ?_, IH⟩
      have h1 := le_assignedTokens ops (stepState (.opRunScript sb env cb) s) a ha
      have h2 : (stepState (Op.opRunScript sb env cb) s).idx = s.idx + 1 := by
        rw [stepState, run_script_idx]
      omega

/-! ## No premature removal -/

/-- A launch operation never removes a previously registered token
(the completion it may process targets only its own fresh token). -/
theorem proc_run_registered (sb cb : Bool) (env : Except Int CallbackProps)
    (s : BridgeState) {t : Nat} (hmem : t ∈ s.registered) (hlt : t < s.idx) :
    t ∈ (proc_run sb env cb s).2.1.registered := by
  cases env with
  | error code => exact List.mem_cons_of_mem _ hmem
  | ok props =>
    cases sb with
    | false => exact List.mem_cons_of_mem _ hmem
    | true =>
      cases cb with
      | false => exact List.mem_cons_of_mem _ hmem
      | true =>
        exact callback_handler_registered_of_ne (List.mem_cons_of_mem _ hmem)
          (Nat.ne_of_lt hlt)

theorem run_script_registered (sb cb : Bool) (env : Except Int CallbackProps)
    (s : BridgeState) {t : Nat} (hmem : t ∈ s.registered) (hlt : t < s.idx) :
    t ∈ (run_script sb env cb s).2.1.registered := by
  cases env with
  | error code => exact List.mem_cons_of_mem _ hmem
  | ok props =>
    cases sb with
    | false => exact List.mem_cons_of_mem _ hmem
    | true =>
      cases cb with
      | false => exact List.mem_cons_of_mem _ hmem
      | true =>
        exact callback_handler_registered_of_ne (List.mem_cons_of_mem _ hmem)
          (Nat.ne_of_lt hlt)

/-- C9: a registered record stays in the registry under every operation
other than a completion-event delivery for its own token: registration of
other records, progress events, events for other tokens, failing handler
invocations, and whole `proc_run`/`run_script` executions all retain it —
in particular, when the native launch fails right after registration
(`proc_run` raises before any wait), the fresh record remains registered,
with no error-path cleanup and no implicit expiry. -/
theorem no_premature_removal (s : BridgeState) (t : Nat) (op : Op)
    (sb cb : Bool) (code : Int)
    (hb : tokensBounded s) (hmem : t ∈ s.registered)
    (hnc : completionFor op t = false) :
    t ∈ (stepState op s).registered ∧
    s.idx ∈ (stepState (.opProcRun sb (.error code) cb) s).registered ∧
    s.idx ∈ (stepState (.opRunScript sb (.error code) cb) s).registered := by
  refine ⟨?_, List.mem_cons_self _ _, List.mem_cons_self _ _⟩
  cases op with
  | opRegister => exact List.mem_cons_of_mem _ hmem
  | opCallback p et j =>
    by_cases het : et = VIX_EVENTTYPE_JOB_COMPLETED
    · have hj : ¬(j = t) := by
        simpa [completionFor, het] using hnc
      exact callback_handler_registered_of_ne hmem (fun h => hj h.symm)
    · rw [stepState, callback_handler_registered_of_ne_completed het]
      exact hmem
  | opProcRun sb2 env cb2 => exact proc_run_registered sb2 cb2 env s hmem (hb t hmem)
  | opRunScript sb2 env cb2 => exact run_script_registered sb2 cb2 env s hmem (hb t hmem)

/-- Witness for `no_premature_removal`: token 1 registered, a further
registration happens, token 1 stays registered; a failing native launch
also leaves its fresh token 2 registered. -/
theorem no_premature_removal_witness :
    tokensBounded oneRegState ∧ 1 ∈ oneRegState.registered ∧
    completionFor .opRegister 1 = false ∧
    (1 ∈ (stepState .opRegister oneRegState).registered ∧
     oneRegState.idx ∈
       (stepState (.opProcRun true (.error 3) false) oneRegState).registered ∧
     oneRegState.idx ∈
       (stepState (.opRunScript true (.error 3) false) oneRegState).registered) :=
  ⟨by decide, by decide, by decide,
   no_premature_removal oneRegState 1 .opRegister true false 3
     (by decide) (by decide) (by decide)⟩

end Aiovix
